import Mathlib

/-
Verification of the event-driven Web-Buddy Python client
(src/python/src/event_driven_client.py).

The development shallowly embeds the client's pure logic:
  - the domain-event model and its per-kind fields,
  - the action mapper (map_event_to_action),
  - the payload extractor (extract_event_payload) of both client variants,
  - the transport retry loop (make_request), driven by an oracle giving the
    outcome of each HTTP attempt,
  - send_event / send_events / the ChatGPT workflow orchestrator, with the
    outcomes of the steps supplied as explicit parameters.
-/

set_option maxHeartbeats 1000000

/-- JSON-like values carried in event fields and wire payloads. -/
inductive JsonValue where
  | vstr : String → JsonValue
  | vint : Int → JsonValue
  | vbool : Bool → JsonValue
  | vnull : JsonValue
deriving DecidableEq

/-- Python truthiness of the expression `s or default` for an optional string:
an absent value and the empty string both fall back to the default. -/
def pyOr (s : Option String) (default : String) : String :=
  match s with
  | some v => if v = "" then default else v
  | none => default

/-- Value of an optional string field as it appears in a Python dict. -/
def optValue : Option String → JsonValue
  | some s => JsonValue.vstr s
  | none => JsonValue.vnull

/-- Modelled from the spec: the events module (src/python/src/events.py) is not
among the sources; the request kinds and their fields are taken from section 3
of the specification and from the constructor calls in event_driven_client.py.
Each event carries kind-specific fields plus an optional correlation id.
otherEvent stands for any further event class, with its class name and its
remaining instance fields. -/
inductive DomainEvent where
  | projectSelectionRequested : String → Option String → Option String → DomainEvent
  | chatSelectionRequested : String → Option String → Option String → DomainEvent
  | promptSubmissionRequested : String → String → Option String → DomainEvent
  | responseRetrievalRequested : String → Nat → Option String → DomainEvent
  | googleImageDownloadRequested : JsonValue → Option String → Option String → Option String → DomainEvent
  | fileDownloadRequested : String → Option String → String → Bool → Option String → DomainEvent
  | trainingModeRequested : String → Option String → DomainEvent
  | otherEvent : String → List (String × JsonValue) → Option String → DomainEvent
deriving DecidableEq

/-- The Python class name of an event (event.__class__.__name__). -/
def DomainEvent.className : DomainEvent → String
  | projectSelectionRequested _ _ _ => "ProjectSelectionRequested"
  | chatSelectionRequested _ _ _ => "ChatSelectionRequested"
  | promptSubmissionRequested _ _ _ => "PromptSubmissionRequested"
  | responseRetrievalRequested _ _ _ => "ResponseRetrievalRequested"
  | googleImageDownloadRequested _ _ _ _ => "GoogleImageDownloadRequested"
  | fileDownloadRequested _ _ _ _ _ => "FileDownloadRequested"
  | trainingModeRequested _ _ => "TrainingModeRequested"
  | otherEvent n _ _ => n

/-- The optional correlation id field of an event. -/
def DomainEvent.correlation_id : DomainEvent → Option String
  | projectSelectionRequested _ _ cid => cid
  | chatSelectionRequested _ _ cid => cid
  | promptSubmissionRequested _ _ cid => cid
  | responseRetrievalRequested _ _ cid => cid
  | googleImageDownloadRequested _ _ _ cid => cid
  | fileDownloadRequested _ _ _ _ cid => cid
  | trainingModeRequested _ cid => cid
  | otherEvent _ _ cid => cid

/-- Modelled from the spec: event.__dict__ as an ordered association list, in
dataclass field order (the order of the constructor calls in the client). -/
def DomainEvent.dict : DomainEvent → List (String × JsonValue)
  | projectSelectionRequested pn sel cid =>
      [("project_name", JsonValue.vstr pn), ("selector", optValue sel),
       ("correlation_id", optValue cid)]
  | chatSelectionRequested ct sel cid =>
      [("chat_title", JsonValue.vstr ct), ("selector", optValue sel),
       ("correlation_id", optValue cid)]
  | promptSubmissionRequested pt sel cid =>
      [("prompt_text", JsonValue.vstr pt), ("selector", JsonValue.vstr sel),
       ("correlation_id", optValue cid)]
  | responseRetrievalRequested sel tmo cid =>
      [("selector", JsonValue.vstr sel), ("timeout", JsonValue.vint (Int.ofNat tmo)),
       ("correlation_id", optValue cid)]
  | googleImageDownloadRequested img sq fn cid =>
      [("image_element", img), ("search_query", optValue sq), ("filename", optValue fn),
       ("correlation_id", optValue cid)]
  | fileDownloadRequested url fn ca sa cid =>
      [("url", JsonValue.vstr url), ("filename", optValue fn),
       ("conflict_action", JsonValue.vstr ca), ("save_as", JsonValue.vbool sa),
       ("correlation_id", optValue cid)]
  | trainingModeRequested web cid =>
      [("website", JsonValue.vstr web), ("correlation_id", optValue cid)]
  | otherEvent _ fields cid => fields ++ [("correlation_id", optValue cid)]

/-- The static event-type table of EventDrivenWebBuddyClient._map_event_to_action. -/
def eventTypeMap : List (String × String) :=
  [("ProjectSelectionRequested", "SELECT_PROJECT"),
   ("ChatSelectionRequested", "SELECT_CHAT"),
   ("PromptSubmissionRequested", "FILL_PROMPT"),
   ("ResponseRetrievalRequested", "GET_RESPONSE"),
   ("GoogleImageDownloadRequested", "DOWNLOAD_IMAGE"),
   ("FileDownloadRequested", "DOWNLOAD_FILE")]

/-- EventDrivenWebBuddyClient._map_event_to_action: looks the class name up in
the static table and raises a ValueError when the result is absent or falsy. -/
def map_event_to_action (e : DomainEvent) : Except String String :=
  match eventTypeMap.lookup e.className with
  | some a =>
      if a = "" then Except.error ("No action mapping found for event type: " ++ e.className)
      else Except.ok a
  | none => Except.error ("No action mapping found for event type: " ++ e.className)

/-- SyncEventDrivenWebBuddyClient._map_event_to_action (textually the same
table and lookup as the asynchronous client). -/
def sync_map_event_to_action (e : DomainEvent) : Except String String :=
  match eventTypeMap.lookup e.className with
  | some a =>
      if a = "" then Except.error ("No action mapping found for event type: " ++ e.className)
      else Except.ok a
  | none => Except.error ("No action mapping found for event type: " ++ e.className)

/-- EventDrivenWebBuddyClient._extract_event_payload: four special-cased kinds,
then the generic shallow copy of event.__dict__ without correlation_id. -/
def extract_event_payload (e : DomainEvent) : List (String × JsonValue) :=
  match e with
  | DomainEvent.projectSelectionRequested pn sel _ =>
      [("selector", JsonValue.vstr (pyOr sel ("[data-project-name=\"" ++ pn ++ "\"]")))]
  | DomainEvent.promptSubmissionRequested pt sel _ =>
      [("selector", JsonValue.vstr sel), ("value", JsonValue.vstr pt)]
  | DomainEvent.googleImageDownloadRequested img sq fn _ =>
      [("selector", JsonValue.vstr "img"), ("imageElement", img),
       ("searchQuery", optValue sq), ("filename", optValue fn)]
  | DomainEvent.fileDownloadRequested url fn ca sa _ =>
      [("url", JsonValue.vstr url), ("filename", optValue fn),
       ("conflictAction", JsonValue.vstr ca), ("saveAs", JsonValue.vbool sa)]
  | _ => e.dict.filter (fun kv => kv.1 != "correlation_id")

/-- SyncEventDrivenWebBuddyClient._extract_event_payload: only
ProjectSelectionRequested is special-cased; every other kind falls through to
the generic shallow copy. -/
def sync_extract_event_payload (e : DomainEvent) : List (String × JsonValue) :=
  match e with
  | DomainEvent.projectSelectionRequested pn sel _ =>
      [("selector", JsonValue.vstr (pyOr sel ("[data-project-name=\"" ++ pn ++ "\"]")))]
  | _ => e.dict.filter (fun kv => kv.1 != "correlation_id")

/-- The kinds given a special case by the asynchronous payload extractor. -/
def hasSpecialPayloadCase : DomainEvent → Bool
  | DomainEvent.projectSelectionRequested _ _ _ => true
  | DomainEvent.promptSubmissionRequested _ _ _ => true
  | DomainEvent.googleImageDownloadRequested _ _ _ _ => true
  | DomainEvent.fileDownloadRequested _ _ _ _ _ => true
  | _ => false

/-- Client configuration (ClientConfig dataclass). -/
structure ClientConfig where
  base_url : String
  api_key : String
  timeout : Nat
  retries : Nat
  user_agent : String
deriving DecidableEq

/-- An HTTP response as seen by _make_request: status, whether the content type
is application/json, the body's error field when present, the status reason
phrase, and the parsed JSON body. -/
structure HttpResponse where
  status : Nat
  contentTypeJson : Bool
  bodyError : Option String
  reason : String
  body : JsonValue
deriving DecidableEq

/-- error_data.get("error", response.reason): the body's error field when the
content type is JSON and the field is present, else the reason phrase. -/
def httpErrorDetail (r : HttpResponse) : String :=
  if r.contentTypeJson then r.bodyError.getD r.reason else r.reason

/-- What a single HTTP attempt of the asynchronous transport can run into. -/
inductive AttemptOutcome where
  | timeout : AttemptOutcome
  | transportError : String → AttemptOutcome
  | httpResponse : HttpResponse → AttemptOutcome
deriving DecidableEq

/-- The exception raised out of one attempt of _make_request, when any. -/
inductive RequestError where
  | timeoutError : RequestError
  | eventSendError : String → RequestError
  | transportFailure : String → RequestError
deriving DecidableEq

/-- One attempt of the _make_request loop body: an HTTP status above 399 raises
an EventSendError embedding the status and the error detail; otherwise the
parsed JSON body is returned. -/
def attemptResult (o : AttemptOutcome) : Except RequestError JsonValue :=
  match o with
  | AttemptOutcome.timeout => Except.error RequestError.timeoutError
  | AttemptOutcome.transportError m => Except.error (RequestError.transportFailure m)
  | AttemptOutcome.httpResponse r =>
      if r.status ≥ 400 then
        Except.error (RequestError.eventSendError
          ("HTTP " ++ toString r.status ++ ": " ++ httpErrorDetail r))
      else
        Except.ok r.body

/-- Observable run of _make_request: its outcome (None when the loop body never
ran, i.e. with zero retries), the number of attempts made, and the backoff
sleeps performed between consecutive attempts. -/
structure RequestRun where
  result : Except RequestError (Option JsonValue)
  attempts : Nat
  sleeps : List Nat

/-- The retry loop of EventDrivenWebBuddyClient._make_request
(for attempt in range(retries)), with the remaining iteration count made
explicit as structural fuel (make_request instantiates it with retries).
On an error the loop re-raises on the last attempt and otherwise sleeps
2 ^ attempt seconds and moves to the next attempt. -/
def makeRequestLoop (outcomes : Nat → AttemptOutcome) (retries : Nat) : Nat → Nat → RequestRun
  | _, 0 => { result := Except.ok none, attempts := 0, sleeps := [] }
  | attempt, fuel + 1 =>
    match attemptResult (outcomes attempt) with
    | Except.ok v => { result := Except.ok (some v), attempts := 1, sleeps := [] }
    | Except.error e =>
      if attempt = retries - 1 then
        { result := Except.error e, attempts := 1, sleeps := [] }
      else
        { result := (makeRequestLoop outcomes retries (attempt + 1) fuel).result,
          attempts := (makeRequestLoop outcomes retries (attempt + 1) fuel).attempts + 1,
          sleeps := 2 ^ attempt :: (makeRequestLoop outcomes retries (attempt + 1) fuel).sleeps }

/-- EventDrivenWebBuddyClient._make_request over an oracle giving each
attempt's outcome. -/
def make_request (outcomes : Nat → AttemptOutcome) (retries : Nat) : RequestRun :=
  makeRequestLoop outcomes retries 0 retries

example :
    make_request (fun _ => AttemptOutcome.timeout) 3 =
      { result := Except.error RequestError.timeoutError, attempts := 3, sleeps := [1, 2] } :=
  rfl

/-- _generate_correlation_id of the asynchronous client:
py-client-{time ms}-{id(self) % 10000}. -/
def generateCorrelationId (nowMs selfId : Nat) : String :=
  "py-client-" ++ toString nowMs ++ "-" ++ toString (selfId % 10000)

/-- _generate_correlation_id of the synchronous client. -/
def generateSyncCorrelationId (nowMs selfId : Nat) : String :=
  "py-sync-" ++ toString nowMs ++ "-" ++ toString (selfId % 10000)

/-- correlation_id = event.correlation_id or self._generate_correlation_id(). -/
def resolveCorrelationId (e : DomainEvent) (genId : String) : String :=
  pyOr e.correlation_id genId

/-- The target half of the dispatch payload. -/
structure DispatchTarget where
  extensionId : String
  tabId : Int
deriving DecidableEq

/-- The message half of the dispatch payload. -/
structure DispatchMessage where
  action : String
  payload : List (String × JsonValue)
  correlationId : String
deriving DecidableEq

/-- The wire shape posted to /api/dispatch. -/
structure DispatchPayload where
  target : DispatchTarget
  message : DispatchMessage
deriving DecidableEq

/-- The dispatch payload send_event builds for an event; fails when the action
mapping fails. -/
def dispatch_payload_for (e : DomainEvent) (extension_id : String) (tab_id : Int)
    (genId : String) : Except String DispatchPayload :=
  (map_event_to_action e).map (fun action =>
    { target := { extensionId := extension_id, tabId := tab_id },
      message := { action := action, payload := extract_event_payload e,
                   correlationId := resolveCorrelationId e genId } })

/-- The GenericEventResponse value type. -/
structure GenericEventResponse where
  correlation_id : String
  success : Bool
  data : List (String × JsonValue)
deriving DecidableEq

/-- _wait_for_event_response: after the simulated delay, a synthetic successful
generic response echoing the correlation id. -/
def wait_for_event_response (correlation_id : String) : GenericEventResponse :=
  { correlation_id := correlation_id, success := true,
    data := [("message", JsonValue.vstr "Event processed successfully")] }

/-- _create_mock_response of the synchronous client. -/
def create_mock_response (correlation_id : String) : GenericEventResponse :=
  { correlation_id := correlation_id, success := true,
    data := [("message", JsonValue.vstr "Event processed successfully")] }

/-- The EventSendError exception: message, originating event, underlying cause. -/
structure EventSendErrorInfo where
  message : String
  event : Option DomainEvent
  cause : Option String
deriving DecidableEq

/-- The str() rendering of a transport-level failure, as interpolated into the
EventSendError message. -/
def requestErrorMessage : RequestError → String
  | RequestError.timeoutError => "TimeoutError"
  | RequestError.eventSendError m => m
  | RequestError.transportFailure m => m

/-- EventDrivenWebBuddyClient.send_event: resolves the correlation id, builds
the dispatch payload, posts it via _make_request, then awaits the correlation
waiter; any failure on the way is wrapped into an EventSendError carrying the
event. -/
def send_event (outcomes : Nat → AttemptOutcome) (cfg : ClientConfig) (genId : String)
    (e : DomainEvent) (extension_id : String) (tab_id : Int) :
    Except EventSendErrorInfo GenericEventResponse :=
  let cid := resolveCorrelationId e genId
  match dispatch_payload_for e extension_id tab_id genId with
  | Except.error m =>
      Except.error { message := "Failed to send event " ++ e.className ++ ": " ++ m,
                     event := some e, cause := some m }
  | Except.ok _dp =>
    match (make_request outcomes cfg.retries).result with
    | Except.error err =>
        Except.error { message := "Failed to send event " ++ e.className ++ ": " ++
                         requestErrorMessage err,
                       event := some e, cause := some (requestErrorMessage err) }
    | Except.ok _ => Except.ok (wait_for_event_response cid)

/-- What one synchronous HTTP call can run into: requests raises a
RequestException (timeouts, connection errors and raise_for_status all take
this shape) or the parsed JSON body is returned. -/
inductive SyncOutcome where
  | requestException : String → SyncOutcome
  | httpOk : JsonValue → SyncOutcome
deriving DecidableEq

/-- SyncEventDrivenWebBuddyClient._make_request: a single attempt, no retry
loop; RequestException is wrapped into an EventSendError message. -/
def sync_make_request (method : String) (o : SyncOutcome) : Except String JsonValue :=
  if method = "GET" ∨ method = "POST" then
    match o with
    | SyncOutcome.httpOk v => Except.ok v
    | SyncOutcome.requestException m => Except.error ("Request failed: " ++ m)
  else Except.error ("Unsupported HTTP method: " ++ method)

/-- The dispatch payload the synchronous send_event builds (with the
synchronous mapper and extractor). -/
def sync_dispatch_payload_for (e : DomainEvent) (extension_id : String) (tab_id : Int)
    (genId : String) : Except String DispatchPayload :=
  (sync_map_event_to_action e).map (fun action =>
    { target := { extensionId := extension_id, tabId := tab_id },
      message := { action := action, payload := sync_extract_event_payload e,
                   correlationId := resolveCorrelationId e genId } })

/-- SyncEventDrivenWebBuddyClient.send_event. -/
def sync_send_event (o : SyncOutcome) (genId : String) (e : DomainEvent)
    (extension_id : String) (tab_id : Int) :
    Except EventSendErrorInfo GenericEventResponse :=
  let cid := resolveCorrelationId e genId
  match sync_dispatch_payload_for e extension_id tab_id genId with
  | Except.error m =>
      Except.error { message := "Failed to send event " ++ e.className ++ ": " ++ m,
                     event := some e, cause := some m }
  | Except.ok _dp =>
    match sync_make_request "POST" o with
    | Except.error m =>
        Except.error { message := "Failed to send event " ++ e.className ++ ": " ++ m,
                       event := some e, cause := some m }
    | Except.ok _ => Except.ok (create_mock_response cid)

/-- send_event : Except.ok to Option, for collecting batch successes. -/
def exceptToOption : Except String GenericEventResponse → Option GenericEventResponse
  | Except.ok r => some r
  | Except.error _ => none

/-- The sequential (parallel=False) branch of send_events, over the outcome of
each per-event send_event call, in list order. Returns the collected responses
or the first raised error, together with the number of dispatches performed.
With stop_on_error the first failure is re-raised; otherwise it is only warned
about and skipped. -/
def send_events_seq :
    List (Except String GenericEventResponse) → Bool →
      Except String (List GenericEventResponse) × Nat
  | [], _ => (Except.ok [], 0)
  | o :: rest, stop =>
    match o with
    | Except.ok r =>
        ((send_events_seq rest stop).1.map (fun rs => r :: rs),
         (send_events_seq rest stop).2 + 1)
    | Except.error e =>
        if stop then (Except.error e, 1)
        else ((send_events_seq rest stop).1, (send_events_seq rest stop).2 + 1)

/-- Outcome of one workflow step: the kind-specific succeeded variant or the
kind-specific failed variant. -/
inductive StepResult where
  | ok : JsonValue → StepResult
  | failedStep : String → StepResult
deriving DecidableEq

/-- Whether a step result is the failed variant (the isinstance checks of the
workflow). -/
def StepResult.isFailed : StepResult → Bool
  | StepResult.failedStep _ => true
  | StepResult.ok _ => false

/-- The step outcomes a workflow run observes. -/
structure WorkflowSteps where
  project_selection : StepResult
  chat_selection : StepResult
  prompt_submission : StepResult
  response_retrieval : StepResult
deriving DecidableEq

/-- The workflow argument dict. -/
structure WorkflowInput where
  project_name : String
  chat_title : Option String
  prompt_text : String
deriving DecidableEq

/-- The WorkflowError exception: message and the partial results accumulated
so far. -/
structure WorkflowErr where
  message : String
  partials : List (String × StepResult)
deriving DecidableEq

/-- Python truthiness of workflow.get('chat_title'): present and non-empty. -/
def chatTitleRequested (w : WorkflowInput) : Bool :=
  match w.chat_title with
  | some t => t != ""
  | none => false

/-- Steps 3 and 4 of execute_full_chatgpt_workflow: prompt submission (with its
failure check) then response retrieval, which is appended without any check. -/
def continueAfterChat (steps : WorkflowSteps) (acc : List (String × StepResult)) :
    Except WorkflowErr (List (String × StepResult)) :=
  if steps.prompt_submission.isFailed then
    Except.error { message := "Prompt submission failed",
                   partials := acc ++ [("prompt_submission", steps.prompt_submission)] }
  else
    Except.ok (acc ++ [("prompt_submission", steps.prompt_submission),
                       ("response_retrieval", steps.response_retrieval)])

/-- EventDrivenWebBuddyClient.execute_full_chatgpt_workflow over the step
outcomes: project selection, then chat selection only when a chat title is
supplied (and truthy), then prompt submission, then response retrieval; the
first three steps short-circuit into a WorkflowError on their failed variant. -/
def execute_full_chatgpt_workflow (steps : WorkflowSteps) (w : WorkflowInput) :
    Except WorkflowErr (List (String × StepResult)) :=
  if steps.project_selection.isFailed then
    Except.error { message := "Project selection failed",
                   partials := [("project_selection", steps.project_selection)] }
  else if chatTitleRequested w then
    if steps.chat_selection.isFailed then
      Except.error { message := "Chat selection failed",
                     partials := [("project_selection", steps.project_selection),
                                  ("chat_selection", steps.chat_selection)] }
    else
      continueAfterChat steps [("project_selection", steps.project_selection),
                               ("chat_selection", steps.chat_selection)]
  else
    continueAfterChat steps [("project_selection", steps.project_selection)]

/-- Unfolding of the retry loop on a successful attempt. -/
theorem makeRequestLoop_ok (outcomes : Nat → AttemptOutcome) (retries attempt fuel : Nat)
    (v : JsonValue) (h : attemptResult (outcomes attempt) = Except.ok v) :
    makeRequestLoop outcomes retries attempt (fuel + 1) =
      { result := Except.ok (some v), attempts := 1, sleeps := [] } := by
  unfold makeRequestLoop
  split
  · next v2 heq =>
      rw [h] at heq
      injection heq with h2
      rw [h2]
  · next e heq =>
      rw [h] at heq
      exact Except.noConfusion heq

/-- Unfolding of the retry loop on a failing attempt. -/
theorem makeRequestLoop_error (outcomes : Nat → AttemptOutcome) (retries attempt fuel : Nat)
    (e : RequestError) (h : attemptResult (outcomes attempt) = Except.error e) :
    makeRequestLoop outcomes retries attempt (fuel + 1) =
      if attempt = retries - 1 then
        { result := Except.error e, attempts := 1, sleeps := [] }
      else
        { result := (makeRequestLoop outcomes retries (attempt + 1) fuel).result,
          attempts := (makeRequestLoop outcomes retries (attempt + 1) fuel).attempts + 1,
          sleeps := 2 ^ attempt ::
            (makeRequestLoop outcomes retries (attempt + 1) fuel).sleeps } := by
  have hu : makeRequestLoop outcomes retries attempt (fuel + 1) =
      match attemptResult (outcomes attempt) with
      | Except.ok v => { result := Except.ok (some v), attempts := 1, sleeps := [] }
      | Except.error e =>
        if attempt = retries - 1 then
          { result := Except.error e, attempts := 1, sleeps := [] }
        else
          { result := (makeRequestLoop outcomes retries (attempt + 1) fuel).result,
            attempts := (makeRequestLoop outcomes retries (attempt + 1) fuel).attempts + 1,
            sleeps := 2 ^ attempt ::
              (makeRequestLoop outcomes retries (attempt + 1) fuel).sleeps } := rfl
  rw [hu, h]

/-- Shifting a range of powers of two by one position. -/
theorem range_pow_shift (a m : Nat) :
    (List.range (m + 1)).map (fun k => 2 ^ (a + k)) =
      2 ^ a :: (List.range m).map (fun k => 2 ^ (a + 1 + k)) := by
  rw [List.range_succ_eq_map, List.map_cons, List.map_map]
  refine congrArg₂ List.cons (by rw [Nat.add_zero]) ?_
  congr 1
  funext k
  show 2 ^ (a + (k + 1)) = 2 ^ (a + 1 + k)
  congr 1
  omega

/-- When every attempt from the current one on fails, the loop keeps retrying
with exponentially growing sleeps and re-raises the last attempt's error. -/
theorem makeRequestLoop_allError (outcomes : Nat → AttemptOutcome) (retries : Nat)
    (err : Nat → RequestError)
    (herr : ∀ i, i < retries → attemptResult (outcomes i) = Except.error (err i)) :
    ∀ fuel attempt, fuel = retries - attempt → attempt < retries →
      makeRequestLoop outcomes retries attempt fuel =
        { result := Except.error (err (retries - 1)), attempts := retries - attempt,
          sleeps := (List.range (retries - 1 - attempt)).map (fun k => 2 ^ (attempt + k)) } := by
  intro fuel
  induction fuel with
  | zero =>
      intro attempt hf hlt
      omega
  | succ f ih =>
      intro attempt hf hlt
      rw [makeRequestLoop_error outcomes retries attempt f (err attempt) (herr attempt hlt)]
      by_cases hlast : attempt = retries - 1
      · rw [if_pos hlast]
        have h1 : retries - attempt = 1 := by omega
        have h2 : retries - 1 - attempt = 0 := by omega
        rw [h1, h2, ← hlast]
        rfl
      · rw [if_neg hlast]
        have hf2 : f = retries - (attempt + 1) := by omega
        have hlt2 : attempt + 1 < retries := by omega
        rw [ih (attempt + 1) hf2 hlt2]
        have hatt : retries - (attempt + 1) + 1 = retries - attempt := by omega
        have hm : retries - 1 - attempt = (retries - 1 - (attempt + 1)) + 1 := by omega
        rw [hatt, hm, range_pow_shift]

/-- When the attempts before position k fail and attempt k succeeds, the loop
stops at attempt k and returns its parsed body. -/
theorem makeRequestLoop_okFrom (outcomes : Nat → AttemptOutcome) (retries k : Nat)
    (v : JsonValue)
    (herr : ∀ i, i < k → ∃ e, attemptResult (outcomes i) = Except.error e)
    (hok : attemptResult (outcomes k) = Except.ok v) (hk : k < retries) :
    ∀ fuel attempt, fuel = retries - attempt → attempt ≤ k →
      makeRequestLoop outcomes retries attempt fuel =
        { result := Except.ok (some v), attempts := k + 1 - attempt,
          sleeps := (List.range (k - attempt)).map (fun j => 2 ^ (attempt + j)) } := by
  intro fuel
  induction fuel with
  | zero =>
      intro attempt hf hle
      omega
  | succ f ih =>
      intro attempt hf hle
      by_cases hak : attempt = k
      · subst hak
        rw [makeRequestLoop_ok outcomes retries attempt f v hok]
        have h1 : attempt + 1 - attempt = 1 := by omega
        have h2 : attempt - attempt = 0 := by omega
        rw [h1, h2]
        rfl
      · have hlt : attempt < k := lt_of_le_of_ne hle hak
        obtain ⟨e, he⟩ := herr attempt hlt
        rw [makeRequestLoop_error outcomes retries attempt f e he]
        rw [if_neg (by omega)]
        rw [ih (attempt + 1) (by omega) (by omega)]
        have hatt : k + 1 - (attempt + 1) + 1 = k + 1 - attempt := by omega
        have hm : k - attempt = (k - (attempt + 1)) + 1 := by omega
        rw [hatt, hm, range_pow_shift]

/-- A string starting with a non-empty literal is non-empty. -/
theorem append_append_ne_empty (a b c d : String) (ha : 0 < a.length) :
    a ++ b ++ c ++ d ≠ "" := by
  intro h
  have hlen := congrArg String.length h
  rw [String.length_append, String.length_append, String.length_append] at hlen
  have h0 : ("" : String).length = 0 := rfl
  omega

/-- Generated async correlation ids are non-empty. -/
theorem generateCorrelationId_ne_empty (nowMs selfId : Nat) :
    generateCorrelationId nowMs selfId ≠ "" := by
  unfold generateCorrelationId
  exact append_append_ne_empty _ _ _ _ (by rw [show ("py-client-" : String).length = 10 from rfl]; omega)

/-- Generated sync correlation ids are non-empty. -/
theorem generateSyncCorrelationId_ne_empty (nowMs selfId : Nat) :
    generateSyncCorrelationId nowMs selfId ≠ "" := by
  unfold generateSyncCorrelationId
  exact append_append_ne_empty _ _ _ _ (by rw [show ("py-sync-" : String).length = 8 from rfl]; omega)

/-- The sequential batch with stop_on_error=False never raises: it dispatches
every event and returns exactly the successes, in order. -/
theorem send_events_seq_continue (outs : List (Except String GenericEventResponse)) :
    send_events_seq outs false =
      (Except.ok (outs.filterMap exceptToOption), outs.length) := by
  induction outs with
  | nil => rfl
  | cons o rest ih =>
      cases o with
      | ok r => simp [send_events_seq, exceptToOption, ih, Except.map]
      | error e => simp [send_events_seq, exceptToOption, ih, Except.map]

/-- The sequential batch with stop_on_error=True stops at the first failure:
it dispatches the successful items before it plus the failing one, and
re-raises its error. -/
theorem send_events_seq_failfast (pre post : List (Except String GenericEventResponse))
    (e : String) (hpre : ∀ x ∈ pre, ∃ r, x = Except.ok r) :
    send_events_seq (pre ++ Except.error e :: post) true = (Except.error e, pre.length + 1) := by
  induction pre with
  | nil => rfl
  | cons o rest ih =>
      obtain ⟨r, hr⟩ := hpre o (List.mem_cons_self o rest)
      subst hr
      have ih2 := ih (fun x hx => hpre x (List.mem_cons_of_mem _ hx))
      simp [send_events_seq, ih2, Except.map]

/-- Attempt outcomes where the first attempt hits an HTTP 500 with a JSON error
body and the second attempt succeeds. -/
def c1Outcomes : Nat → AttemptOutcome := fun n =>
  if n = 0 then
    AttemptOutcome.httpResponse
      { status := 500, contentTypeJson := true, bodyError := some "boom",
        reason := "Internal Server Error", body := JsonValue.vnull }
  else
    AttemptOutcome.httpResponse
      { status := 200, contentTypeJson := true, bodyError := none, reason := "OK",
        body := JsonValue.vstr "ok" }

/-- Claim C1 is false as stated: with two configured retries, a first attempt
answered by HTTP 500 does not make the request fail immediately; the loop
sleeps one second, retries, and the request succeeds on the second attempt, so
an HTTP status above 399 is retried exactly like a timeout. -/
theorem c1_counterexample :
    (make_request c1Outcomes 2).attempts = 2 ∧
    (make_request c1Outcomes 2).sleeps = [1] ∧
    (make_request c1Outcomes 2).result = Except.ok (some (JsonValue.vstr "ok")) :=
  ⟨rfl, rfl, rfl⟩

/-- Claim C1 (amended): an HTTP status above 399 raises an EventSendError
embedding the status and the server-provided detail (the body's error field
when the body is JSON, else the reason phrase), but that error is retried like
timeouts and transport errors; the request only fails with it when it arises
on the last attempt, after all configured attempts were used. -/
theorem c1_amended_http_error_detail (outcomes : Nat → AttemptOutcome) (retries : Nat)
    (resp : Nat → HttpResponse) (hr : 1 ≤ retries)
    (hout : ∀ i, i < retries → outcomes i = AttemptOutcome.httpResponse (resp i))
    (hst : ∀ i, i < retries → 400 ≤ (resp i).status) :
    (make_request outcomes retries).result =
      Except.error (RequestError.eventSendError
        ("HTTP " ++ toString (resp (retries - 1)).status ++ ": " ++
          httpErrorDetail (resp (retries - 1)))) ∧
    (make_request outcomes retries).attempts = retries := by
  have herr : ∀ i, i < retries → attemptResult (outcomes i) =
      Except.error (RequestError.eventSendError
        ("HTTP " ++ toString (resp i).status ++ ": " ++ httpErrorDetail (resp i))) := by
    intro i hi
    rw [hout i hi]
    simp [attemptResult, hst i hi]
  have h := makeRequestLoop_allError outcomes retries
    (fun i => RequestError.eventSendError
      ("HTTP " ++ toString (resp i).status ++ ": " ++ httpErrorDetail (resp i)))
    herr retries 0 (by omega) (by omega)
  unfold make_request
  rw [h]
  exact ⟨rfl, by simp⟩

/-- Witness for the amended claim C1 at a concrete run: one configured retry,
answered by HTTP 503 with a non-JSON body. -/
theorem c1_amended_witness :
    (make_request (fun _ => AttemptOutcome.httpResponse
        { status := 503, contentTypeJson := false, bodyError := none,
          reason := "Service Unavailable", body := JsonValue.vnull }) 1).result =
      Except.error (RequestError.eventSendError "HTTP 503: Service Unavailable") ∧
    (make_request (fun _ => AttemptOutcome.httpResponse
        { status := 503, contentTypeJson := false, bodyError := none,
          reason := "Service Unavailable", body := JsonValue.vnull }) 1).attempts = 1 := by
  have h := c1_amended_http_error_detail
    (fun _ => AttemptOutcome.httpResponse
      { status := 503, contentTypeJson := false, bodyError := none,
        reason := "Service Unavailable", body := JsonValue.vnull }) 1
    (fun _ => { status := 503, contentTypeJson := false, bodyError := none,
                reason := "Service Unavailable", body := JsonValue.vnull })
    (by omega) (fun i _ => rfl) (fun i _ => by show (400 : Nat) ≤ 503; decide)
  exact h

/-- Claim C3: when every attempt times out the loop performs exactly the
configured number of attempts, sleeping 2 ^ attempt seconds between
consecutive attempts (a strictly increasing schedule), and re-raises the final
timeout; when some attempt succeeds before exhaustion, the request returns
that attempt's parsed JSON after exactly attempt + 1 attempts, with no further
retries. -/
theorem c3_timeout_retry_schedule (outcomes : Nat → AttemptOutcome) (retries : Nat)
    (hr : 1 ≤ retries) :
    ((∀ i, i < retries → outcomes i = AttemptOutcome.timeout) →
      (make_request outcomes retries).result = Except.error RequestError.timeoutError ∧
      (make_request outcomes retries).attempts = retries ∧
      (make_request outcomes retries).sleeps =
        (List.range (retries - 1)).map (fun k => 2 ^ k) ∧
      List.Pairwise (fun a b => a < b) (make_request outcomes retries).sleeps) ∧
    (∀ k r, k < retries → (∀ i, i < k → outcomes i = AttemptOutcome.timeout) →
      outcomes k = AttemptOutcome.httpResponse r → r.status < 400 →
      (make_request outcomes retries).result = Except.ok (some r.body) ∧
      (make_request outcomes retries).attempts = k + 1 ∧
      (make_request outcomes retries).sleeps = (List.range k).map (fun j => 2 ^ j)) := by
  constructor
  · intro ht
    have herr : ∀ i, i < retries →
        attemptResult (outcomes i) = Except.error RequestError.timeoutError := by
      intro i hi
      rw [ht i hi]
      rfl
    have h := makeRequestLoop_allError outcomes retries (fun _ => RequestError.timeoutError)
      herr retries 0 (by omega) (by omega)
    unfold make_request
    rw [h]
    refine ⟨rfl, by simp, by simp, ?_⟩
    show List.Pairwise (fun a b => a < b)
      ((List.range (retries - 1 - 0)).map (fun k => 2 ^ (0 + k)))
    refine List.Pairwise.map _ (fun a b hab => ?_) (List.pairwise_lt_range _)
    exact Nat.pow_lt_pow_right (by omega) (by omega)
  · intro k r hk ht hok hst
    have herr : ∀ i, i < k → ∃ e, attemptResult (outcomes i) = Except.error e := by
      intro i hi
      exact ⟨RequestError.timeoutError, by rw [ht i hi]; rfl⟩
    have hokr : attemptResult (outcomes k) = Except.ok r.body := by
      rw [hok]
      simp [attemptResult, Nat.not_le.mpr hst]
    have h := makeRequestLoop_okFrom outcomes retries k r.body herr hokr hk retries 0
      (by omega) (by omega)
    unfold make_request
    rw [h]
    exact ⟨rfl, by simp, by simp⟩

/-- Attempt outcomes that time out once and then succeed. -/
def c3MixedOutcomes : Nat → AttemptOutcome := fun n =>
  if n = 0 then AttemptOutcome.timeout
  else
    AttemptOutcome.httpResponse
      { status := 200, contentTypeJson := true, bodyError := none, reason := "OK",
        body := JsonValue.vstr "fine" }

/-- Witness for claim C3: three configured retries, all timing out, give three
attempts, sleeps 1 and 2, and the re-raised timeout; and with a success on the
second attempt the loop stops after two attempts. -/
theorem c3_witness :
    ((make_request (fun _ => AttemptOutcome.timeout) 3).result =
        Except.error RequestError.timeoutError ∧
      (make_request (fun _ => AttemptOutcome.timeout) 3).attempts = 3 ∧
      (make_request (fun _ => AttemptOutcome.timeout) 3).sleeps = [1, 2]) ∧
    ((make_request c3MixedOutcomes 3).result = Except.ok (some (JsonValue.vstr "fine")) ∧
      (make_request c3MixedOutcomes 3).attempts = 2) := by
  constructor
  · have h := (c3_timeout_retry_schedule (fun _ => AttemptOutcome.timeout) 3 (by omega)).1
      (fun i _ => rfl)
    refine ⟨h.1, h.2.1, ?_⟩
    rw [h.2.2.1]
    rfl
  · have h := (c3_timeout_retry_schedule c3MixedOutcomes 3 (by omega)).2 1
      { status := 200, contentTypeJson := true, bodyError := none, reason := "OK",
        body := JsonValue.vstr "fine" }
      (by omega) (fun i hi => by interval_cases i; rfl) rfl (by decide)
    exact ⟨h.1, h.2.1⟩

/-- Claim C10: with zero configured retries the attempt loop never runs, so no
HTTP attempt and no sleep happens and the transport returns None without
raising; send_event nevertheless succeeds, returning the synthetic generic
response that echoes the resolved correlation id. -/
theorem c10_zero_retries_no_attempts (outcomes : Nat → AttemptOutcome) (cfg : ClientConfig)
    (e : DomainEvent) (a genId ext : String) (tab : Int)
    (hz : cfg.retries = 0) (ha : map_event_to_action e = Except.ok a) :
    (make_request outcomes cfg.retries).attempts = 0 ∧
    (make_request outcomes cfg.retries).result = Except.ok none ∧
    (make_request outcomes cfg.retries).sleeps = [] ∧
    send_event outcomes cfg genId e ext tab =
      Except.ok { correlation_id := pyOr e.correlation_id genId, success := true,
                  data := [("message", JsonValue.vstr "Event processed successfully")] } := by
  refine ⟨by rw [hz]; rfl, by rw [hz]; rfl, by rw [hz]; rfl, ?_⟩
  simp [send_event, dispatch_payload_for, ha, Except.map, hz, make_request, makeRequestLoop,
    wait_for_event_response, resolveCorrelationId]

/-- A sample configuration used by concrete runs. -/
def sampleConfig : ClientConfig :=
  { base_url := "http://localhost:3000", api_key := "k", timeout := 30, retries := 3,
    user_agent := "WebBuddyPythonSDK/1.0.0" }

/-- A configuration whose retry count is zero. -/
def zeroRetryConfig : ClientConfig :=
  { base_url := "http://localhost:3000", api_key := "k", timeout := 30, retries := 0,
    user_agent := "WebBuddyPythonSDK/1.0.0" }

/-- Witness for claim C10 at a concrete run: zero retries, an event whose
action mapping succeeds, and an oracle that would time out if it were ever
consulted. -/
theorem c10_witness :
    (make_request (fun _ => AttemptOutcome.timeout) zeroRetryConfig.retries).attempts = 0 ∧
    send_event (fun _ => AttemptOutcome.timeout) zeroRetryConfig "gen"
        (DomainEvent.chatSelectionRequested "t" none (some "cid")) "ext" 1 =
      Except.ok { correlation_id := "cid", success := true,
                  data := [("message", JsonValue.vstr "Event processed successfully")] } := by
  have h := c10_zero_retries_no_attempts (fun _ => AttemptOutcome.timeout) zeroRetryConfig
    (DomainEvent.chatSelectionRequested "t" none (some "cid")) "SELECT_CHAT" "gen" "ext" 1
    rfl rfl
  refine ⟨h.1, ?_⟩
  rw [h.2.2.2]
  rfl

/-- send_event when the action mapping (hence the dispatch payload) fails. -/
theorem send_event_dispatch_err (outcomes : Nat → AttemptOutcome) (cfg : ClientConfig)
    (genId : String) (e : DomainEvent) (ext : String) (tab : Int) (m : String)
    (hdp : dispatch_payload_for e ext tab genId = Except.error m) :
    send_event outcomes cfg genId e ext tab =
      Except.error { message := "Failed to send event " ++ e.className ++ ": " ++ m,
                     event := some e, cause := some m } := by
  unfold send_event
  rw [hdp]

/-- send_event when the transport raises. -/
theorem send_event_request_err (outcomes : Nat → AttemptOutcome) (cfg : ClientConfig)
    (genId : String) (e : DomainEvent) (ext : String) (tab : Int) (dp : DispatchPayload)
    (err : RequestError)
    (hdp : dispatch_payload_for e ext tab genId = Except.ok dp)
    (hm : (make_request outcomes cfg.retries).result = Except.error err) :
    send_event outcomes cfg genId e ext tab =
      Except.error { message := "Failed to send event " ++ e.className ++ ": " ++
                       requestErrorMessage err,
                     event := some e, cause := some (requestErrorMessage err) } := by
  unfold send_event
  rw [hdp, hm]

/-- send_event when dispatch and transport both succeed: the correlation
waiter's synthetic response for the resolved correlation id. -/
theorem send_event_request_ok (outcomes : Nat → AttemptOutcome) (cfg : ClientConfig)
    (genId : String) (e : DomainEvent) (ext : String) (tab : Int) (dp : DispatchPayload)
    (v : Option JsonValue)
    (hdp : dispatch_payload_for e ext tab genId = Except.ok dp)
    (hm : (make_request outcomes cfg.retries).result = Except.ok v) :
    send_event outcomes cfg genId e ext tab =
      Except.ok (wait_for_event_response (resolveCorrelationId e genId)) := by
  unfold send_event
  rw [hdp, hm]

/-- sync send_event when its dispatch payload fails. -/
theorem sync_send_event_dispatch_err (o : SyncOutcome) (genId : String) (e : DomainEvent)
    (ext : String) (tab : Int) (m : String)
    (hdp : sync_dispatch_payload_for e ext tab genId = Except.error m) :
    sync_send_event o genId e ext tab =
      Except.error { message := "Failed to send event " ++ e.className ++ ": " ++ m,
                     event := some e, cause := some m } := by
  unfold sync_send_event
  rw [hdp]

/-- sync send_event when the single HTTP attempt raises. -/
theorem sync_send_event_request_err (o : SyncOutcome) (genId : String) (e : DomainEvent)
    (ext : String) (tab : Int) (dp : DispatchPayload) (m : String)
    (hdp : sync_dispatch_payload_for e ext tab genId = Except.ok dp)
    (hm : sync_make_request "POST" o = Except.error m) :
    sync_send_event o genId e ext tab =
      Except.error { message := "Failed to send event " ++ e.className ++ ": " ++ m,
                     event := some e, cause := some m } := by
  unfold sync_send_event
  rw [hdp, hm]

/-- sync send_event on success: the mock response for the resolved id. -/
theorem sync_send_event_request_ok (o : SyncOutcome) (genId : String) (e : DomainEvent)
    (ext : String) (tab : Int) (dp : DispatchPayload) (v : JsonValue)
    (hdp : sync_dispatch_payload_for e ext tab genId = Except.ok dp)
    (hm : sync_make_request "POST" o = Except.ok v) :
    sync_send_event o genId e ext tab =
      Except.ok (create_mock_response (resolveCorrelationId e genId)) := by
  unfold sync_send_event
  rw [hdp, hm]

/-- Resolution never yields an empty id when the generated fallback is
non-empty. -/
theorem pyOr_ne_empty (s : Option String) (gid : String) (hg : gid ≠ "") :
    pyOr s gid ≠ "" := by
  cases s with
  | none => simpa [pyOr] using hg
  | some v =>
      by_cases hv : v = ""
      · simpa [pyOr, hv] using hg
      · simp [pyOr, hv]

/-- Claim C4: both client variants resolve a non-empty correlation id — the
event's own when present and non-empty, a freshly generated one otherwise —
put exactly that id on the dispatched message, and return a response carrying
exactly that id whenever send_event succeeds. -/
theorem c4_correlation_id_propagation (e : DomainEvent) (outcomes : Nat → AttemptOutcome)
    (o : SyncOutcome) (cfg : ClientConfig) (nowMs selfId : Nat) (ext : String) (tab : Int) :
    resolveCorrelationId e (generateCorrelationId nowMs selfId) ≠ "" ∧
    resolveCorrelationId e (generateSyncCorrelationId nowMs selfId) ≠ "" ∧
    (∀ s, e.correlation_id = some s → s ≠ "" →
      resolveCorrelationId e (generateCorrelationId nowMs selfId) = s ∧
      resolveCorrelationId e (generateSyncCorrelationId nowMs selfId) = s) ∧
    (e.correlation_id = none ∨ e.correlation_id = some "" →
      resolveCorrelationId e (generateCorrelationId nowMs selfId) =
        generateCorrelationId nowMs selfId) ∧
    (∀ dp, dispatch_payload_for e ext tab (generateCorrelationId nowMs selfId) =
        Except.ok dp →
      dp.message.correlationId = resolveCorrelationId e (generateCorrelationId nowMs selfId)) ∧
    (∀ dp, sync_dispatch_payload_for e ext tab (generateSyncCorrelationId nowMs selfId) =
        Except.ok dp →
      dp.message.correlationId =
        resolveCorrelationId e (generateSyncCorrelationId nowMs selfId)) ∧
    (∀ resp, send_event outcomes cfg (generateCorrelationId nowMs selfId) e ext tab =
        Except.ok resp →
      resp.correlation_id = resolveCorrelationId e (generateCorrelationId nowMs selfId)) ∧
    (∀ resp, sync_send_event o (generateSyncCorrelationId nowMs selfId) e ext tab =
        Except.ok resp →
      resp.correlation_id = resolveCorrelationId e (generateSyncCorrelationId nowMs selfId)) := by
  refine ⟨pyOr_ne_empty _ _ (generateCorrelationId_ne_empty nowMs selfId),
          pyOr_ne_empty _ _ (generateSyncCorrelationId_ne_empty nowMs selfId),
          ?_, ?_, ?_, ?_, ?_, ?_⟩
  · intro s hs hsne
    constructor
    · simp [resolveCorrelationId, pyOr, hs, hsne]
    · simp [resolveCorrelationId, pyOr, hs, hsne]
  · intro h
    rcases h with h | h
    · simp [resolveCorrelationId, pyOr, h]
    · simp [resolveCorrelationId, pyOr, h]
  · intro dp hdp
    cases hm : map_event_to_action e with
    | error m =>
        simp only [dispatch_payload_for, hm, Except.map] at hdp
        exact Except.noConfusion hdp
    | ok a =>
        simp only [dispatch_payload_for, hm, Except.map, Except.ok.injEq] at hdp
        rw [← hdp]
  · intro dp hdp
    cases hm : sync_map_event_to_action e with
    | error m =>
        simp only [sync_dispatch_payload_for, hm, Except.map] at hdp
        exact Except.noConfusion hdp
    | ok a =>
        simp only [sync_dispatch_payload_for, hm, Except.map, Except.ok.injEq] at hdp
        rw [← hdp]
  · intro resp hr
    cases hdp : dispatch_payload_for e ext tab (generateCorrelationId nowMs selfId) with
    | error m =>
        rw [send_event_dispatch_err outcomes cfg _ e ext tab m hdp] at hr
        exact Except.noConfusion hr
    | ok dp =>
        cases hm : (make_request outcomes cfg.retries).result with
        | error err =>
            rw [send_event_request_err outcomes cfg _ e ext tab dp err hdp hm] at hr
            exact Except.noConfusion hr
        | ok v =>
            rw [send_event_request_ok outcomes cfg _ e ext tab dp v hdp hm] at hr
            injection hr with h2
            rw [← h2]
            rfl
  · intro resp hr
    cases hdp : sync_dispatch_payload_for e ext tab (generateSyncCorrelationId nowMs selfId) with
    | error m =>
        rw [sync_send_event_dispatch_err o _ e ext tab m hdp] at hr
        exact Except.noConfusion hr
    | ok dp =>
        cases hm : sync_make_request "POST" o with
        | error m =>
            rw [sync_send_event_request_err o _ e ext tab dp m hdp hm] at hr
            exact Except.noConfusion hr
        | ok v =>
            rw [sync_send_event_request_ok o _ e ext tab dp v hdp hm] at hr
            injection hr with h2
            rw [← h2]
            rfl

/-- An event that carries its own correlation id. -/
def c4Event : DomainEvent := DomainEvent.chatSelectionRequested "t" none (some "abc")

/-- Attempt outcomes that always answer HTTP 200. -/
def okOutcomes : Nat → AttemptOutcome := fun _ =>
  AttemptOutcome.httpResponse
    { status := 200, contentTypeJson := true, bodyError := none, reason := "OK",
      body := JsonValue.vstr "ok" }

/-- Witness for claim C4 at a concrete event carrying correlation id abc. -/
theorem c4_witness :
    resolveCorrelationId c4Event (generateCorrelationId 5 7) = "abc" ∧
    resolveCorrelationId c4Event (generateCorrelationId 5 7) ≠ "" ∧
    (wait_for_event_response "abc").correlation_id =
      resolveCorrelationId c4Event (generateCorrelationId 5 7) := by
  have h := c4_correlation_id_propagation c4Event okOutcomes
    (SyncOutcome.httpOk JsonValue.vnull) sampleConfig 5 7 "ext" 1
  refine ⟨(h.2.2.1 "abc" rfl (by decide)).1, h.1, ?_⟩
  exact h.2.2.2.2.2.2.1 (wait_for_event_response "abc") rfl

/-- Claim C2 is false as stated: on a PromptSubmissionRequested event the two
client variants produce different wire payloads (the synchronous extractor has
no special case for this kind and falls back to the generic shallow copy). -/
theorem c2_counterexample :
    sync_extract_event_payload
        (DomainEvent.promptSubmissionRequested "hi" "#prompt-textarea" (some "c")) ≠
      extract_event_payload
        (DomainEvent.promptSubmissionRequested "hi" "#prompt-textarea" (some "c")) := by
  decide

/-- Claim C2 (amended): the two variants share the action mapping, and agree on
payload extraction for ProjectSelectionRequested and for every kind without a
special case; but for PromptSubmissionRequested, GoogleImageDownloadRequested
and FileDownloadRequested the synchronous extractor falls back to the generic
shallow copy and always yields a different payload, and the synchronous
transport performs a single attempt that raises immediately, with no
retry/backoff, while the asynchronous transport retries failed attempts. -/
theorem c2_amended_variant_divergence :
    (∀ e, sync_map_event_to_action e = map_event_to_action e) ∧
    (∀ pn sel cid,
      sync_extract_event_payload (DomainEvent.projectSelectionRequested pn sel cid) =
        extract_event_payload (DomainEvent.projectSelectionRequested pn sel cid)) ∧
    (∀ e, hasSpecialPayloadCase e = false →
      sync_extract_event_payload e = extract_event_payload e) ∧
    (∀ pt s cid,
      sync_extract_event_payload (DomainEvent.promptSubmissionRequested pt s cid) ≠
        extract_event_payload (DomainEvent.promptSubmissionRequested pt s cid)) ∧
    (∀ img sq fn cid,
      sync_extract_event_payload (DomainEvent.googleImageDownloadRequested img sq fn cid) ≠
        extract_event_payload (DomainEvent.googleImageDownloadRequested img sq fn cid)) ∧
    (∀ url fn ca sa cid,
      sync_extract_event_payload (DomainEvent.fileDownloadRequested url fn ca sa cid) ≠
        extract_event_payload (DomainEvent.fileDownloadRequested url fn ca sa cid)) ∧
    (∀ m, sync_make_request "POST" (SyncOutcome.requestException m) =
      Except.error ("Request failed: " ++ m)) ∧
    (∀ outcomes v, attemptResult (outcomes 0) = Except.error RequestError.timeoutError →
      attemptResult (outcomes 1) = Except.ok v →
      (make_request outcomes 2).result = Except.ok (some v) ∧
      (make_request outcomes 2).attempts = 2) := by
  refine ⟨fun e => rfl, fun pn sel cid => rfl, ?_, ?_, ?_, ?_, fun m => rfl, ?_⟩
  · intro e h
    cases e with
    | projectSelectionRequested a b c => exact absurd h (by simp [hasSpecialPayloadCase])
    | promptSubmissionRequested a b c => exact absurd h (by simp [hasSpecialPayloadCase])
    | googleImageDownloadRequested a b c d => exact absurd h (by simp [hasSpecialPayloadCase])
    | fileDownloadRequested a b c d f => exact absurd h (by simp [hasSpecialPayloadCase])
    | chatSelectionRequested a b c => rfl
    | responseRetrievalRequested a b c => rfl
    | trainingModeRequested a b => rfl
    | otherEvent a b c => rfl
  · intro pt s cid h
    have h2 : ("prompt_text" : String) = "selector" :=
      congrArg (fun l => (l.headD ("", JsonValue.vnull)).1) h
    exact absurd h2 (by decide)
  · intro img sq fn cid h
    have h2 : ("image_element" : String) = "selector" :=
      congrArg (fun l => (l.headD ("", JsonValue.vnull)).1) h
    exact absurd h2 (by decide)
  · intro url fn ca sa cid h
    have h2 : ("conflict_action" : String) = "conflictAction" :=
      congrArg (fun l => ((l.drop 2).headD ("", JsonValue.vnull)).1) h
    exact absurd h2 (by decide)
  · intro outcomes v h0 h1
    have ho1 : makeRequestLoop outcomes 2 1 1 =
        { result := Except.ok (some v), attempts := 1, sleeps := [] } :=
      makeRequestLoop_ok outcomes 2 1 0 v h1
    have he : makeRequestLoop outcomes 2 0 2 =
        { result := (makeRequestLoop outcomes 2 1 1).result,
          attempts := (makeRequestLoop outcomes 2 1 1).attempts + 1,
          sleeps := 2 ^ 0 :: (makeRequestLoop outcomes 2 1 1).sleeps } := by
      have h := makeRequestLoop_error outcomes 2 0 1 RequestError.timeoutError h0
      rw [if_neg (by decide)] at h
      exact h
    constructor
    · show (makeRequestLoop outcomes 2 0 2).result = Except.ok (some v)
      rw [he, ho1]
    · show (makeRequestLoop outcomes 2 0 2).attempts = 2
      rw [he, ho1]

/-- Witness for the amended claim C2: a default-kind event on which the two
extractors agree, and a prompt event on which they differ. -/
theorem c2_amended_witness :
    sync_extract_event_payload (DomainEvent.chatSelectionRequested "t" (some "s") (some "c")) =
      extract_event_payload (DomainEvent.chatSelectionRequested "t" (some "s") (some "c")) ∧
    sync_extract_event_payload (DomainEvent.promptSubmissionRequested "hi" "#p" none) ≠
      extract_event_payload (DomainEvent.promptSubmissionRequested "hi" "#p" none) :=
  ⟨c2_amended_variant_divergence.2.2.1 _ rfl,
   c2_amended_variant_divergence.2.2.2.1 "hi" "#p" none⟩


/-- Step outcomes where only response retrieval fails. -/
def c5Steps : WorkflowSteps :=
  { project_selection := StepResult.ok (JsonValue.vstr "p"),
    chat_selection := StepResult.ok (JsonValue.vstr "c"),
    prompt_submission := StepResult.ok (JsonValue.vstr "s"),
    response_retrieval := StepResult.failedStep "no response" }

/-- A workflow input with no chat title. -/
def c5Input : WorkflowInput :=
  { project_name := "P", chat_title := none, prompt_text := "hi" }

/-- Claim C5 is false as stated: when the response-retrieval step returns its
failed variant the workflow does not raise a WorkflowError; the failed result
is silently included in the returned results (the orchestrator checks the
failure of the first three steps only). -/
theorem c5_counterexample :
    c5Steps.response_retrieval.isFailed = true ∧
    execute_full_chatgpt_workflow c5Steps c5Input =
      Except.ok [("project_selection", StepResult.ok (JsonValue.vstr "p")),
                 ("prompt_submission", StepResult.ok (JsonValue.vstr "s")),
                 ("response_retrieval", StepResult.failedStep "no response")] :=
  ⟨rfl, rfl⟩

/-- The results accumulated before the prompt-submission step. -/
def workflowLeadingSteps (steps : WorkflowSteps) (w : WorkflowInput) :
    List (String × StepResult) :=
  if chatTitleRequested w then
    [("project_selection", steps.project_selection),
     ("chat_selection", steps.chat_selection)]
  else [("project_selection", steps.project_selection)]

/-- Claim C5 (amended): the workflow runs project selection, chat selection
only when a chat title was supplied, prompt submission and response retrieval
strictly in that order, raising a WorkflowError carrying exactly the results
accumulated so far when project selection, chat selection or prompt submission
returns its failed variant; a failed response retrieval is not checked and is
returned inside the results. With no chat title exactly three steps run, and a
failed project selection raises with only the project_selection entry. -/
theorem c5_amended_workflow_short_circuit (steps : WorkflowSteps) (w : WorkflowInput) :
    (steps.project_selection.isFailed = true →
      execute_full_chatgpt_workflow steps w =
        Except.error { message := "Project selection failed",
                       partials := [("project_selection", steps.project_selection)] }) ∧
    (steps.project_selection.isFailed = false → chatTitleRequested w = true →
      steps.chat_selection.isFailed = true →
      execute_full_chatgpt_workflow steps w =
        Except.error { message := "Chat selection failed",
                       partials := [("project_selection", steps.project_selection),
                                    ("chat_selection", steps.chat_selection)] }) ∧
    (steps.project_selection.isFailed = false →
      (chatTitleRequested w = true → steps.chat_selection.isFailed = false) →
      steps.prompt_submission.isFailed = true →
      execute_full_chatgpt_workflow steps w =
        Except.error { message := "Prompt submission failed",
                       partials := workflowLeadingSteps steps w ++
                         [("prompt_submission", steps.prompt_submission)] }) ∧
    (steps.project_selection.isFailed = false →
      (chatTitleRequested w = true → steps.chat_selection.isFailed = false) →
      steps.prompt_submission.isFailed = false →
      execute_full_chatgpt_workflow steps w =
        Except.ok (workflowLeadingSteps steps w ++
          [("prompt_submission", steps.prompt_submission),
           ("response_retrieval", steps.response_retrieval)])) ∧
    (chatTitleRequested w = false → steps.project_selection.isFailed = false →
      steps.prompt_submission.isFailed = false →
      execute_full_chatgpt_workflow steps w =
        Except.ok [("project_selection", steps.project_selection),
                   ("prompt_submission", steps.prompt_submission),
                   ("response_retrieval", steps.response_retrieval)]) := by
  refine ⟨?_, ?_, ?_, ?_, ?_⟩
  · intro h1
    simp [execute_full_chatgpt_workflow, h1]
  · intro h1 hc h2
    simp [execute_full_chatgpt_workflow, h1, hc, h2]
  · intro h1 hchat h3
    by_cases hc : chatTitleRequested w
    · simp [execute_full_chatgpt_workflow, continueAfterChat, workflowLeadingSteps,
        h1, hc, hchat hc, h3]
    · simp [execute_full_chatgpt_workflow, continueAfterChat, workflowLeadingSteps,
        h1, hc, h3]
  · intro h1 hchat h3
    by_cases hc : chatTitleRequested w
    · simp [execute_full_chatgpt_workflow, continueAfterChat, workflowLeadingSteps,
        h1, hc, hchat hc, h3]
    · simp [execute_full_chatgpt_workflow, continueAfterChat, workflowLeadingSteps,
        h1, hc, h3]
  · intro hc h1 h3
    simp [execute_full_chatgpt_workflow, continueAfterChat, h1, hc, h3]

/-- Step outcomes where project selection fails at once. -/
def c5FailSteps : WorkflowSteps :=
  { project_selection := StepResult.failedStep "nope",
    chat_selection := StepResult.ok (JsonValue.vstr "c"),
    prompt_submission := StepResult.ok (JsonValue.vstr "s"),
    response_retrieval := StepResult.ok (JsonValue.vstr "r") }

/-- Witness for the amended claim C5: a failed project selection raises with
only the project_selection entry, and with no chat title a clean run returns
exactly the three step entries in order. -/
theorem c5_amended_witness :
    execute_full_chatgpt_workflow c5FailSteps c5Input =
      Except.error { message := "Project selection failed",
                     partials := [("project_selection", StepResult.failedStep "nope")] } ∧
    execute_full_chatgpt_workflow
        { project_selection := StepResult.ok (JsonValue.vstr "p"),
          chat_selection := StepResult.ok (JsonValue.vstr "c"),
          prompt_submission := StepResult.ok (JsonValue.vstr "s"),
          response_retrieval := StepResult.ok (JsonValue.vstr "r") } c5Input =
      Except.ok [("project_selection", StepResult.ok (JsonValue.vstr "p")),
                 ("prompt_submission", StepResult.ok (JsonValue.vstr "s")),
                 ("response_retrieval", StepResult.ok (JsonValue.vstr "r"))] :=
  ⟨(c5_amended_workflow_short_circuit c5FailSteps c5Input).1 rfl,
   (c5_amended_workflow_short_circuit _ c5Input).2.2.2.2 rfl rfl rfl⟩

/-- Claim C6: the sequential batch is asymmetric in stop_on_error. With it set,
events are dispatched in order and the first failure is re-raised with no
further dispatches; without it, every event is dispatched and exactly the
successful responses are returned in order, the failed items omitted, with no
raise. -/
theorem c6_send_events_asymmetry (outs : List (Except String GenericEventResponse)) :
    (∀ pre post e, outs = pre ++ Except.error e :: post →
      (∀ x ∈ pre, ∃ r, x = Except.ok r) →
      send_events_seq outs true = (Except.error e, pre.length + 1)) ∧
    send_events_seq outs false = (Except.ok (outs.filterMap exceptToOption), outs.length) := by
  constructor
  · intro pre post e h hpre
    subst h
    exact send_events_seq_failfast pre post e hpre
  · exact send_events_seq_continue outs

/-- A successful response used by the batch witnesses. -/
def c6RespA : GenericEventResponse := { correlation_id := "a", success := true, data := [] }

/-- Another successful response used by the batch witnesses. -/
def c6RespB : GenericEventResponse := { correlation_id := "b", success := true, data := [] }

/-- Witness for claim C6 on a batch whose middle event fails: stop_on_error
raises after two dispatches; without it all three dispatch and the two
successes come back in order. -/
theorem c6_witness :
    send_events_seq [Except.ok c6RespA, Except.error "boom", Except.ok c6RespB] true =
      (Except.error "boom", 2) ∧
    send_events_seq [Except.ok c6RespA, Except.error "boom", Except.ok c6RespB] false =
      (Except.ok [c6RespA, c6RespB], 3) := by
  constructor
  · exact (c6_send_events_asymmetry _).1 [Except.ok c6RespA] [Except.ok c6RespB] "boom" rfl
      (by intro x hx
          simp only [List.mem_singleton] at hx
          exact ⟨c6RespA, hx⟩)
  · have h := (c6_send_events_asymmetry
      [Except.ok c6RespA, Except.error "boom", Except.ok c6RespB]).2
    rw [h]
    rfl

/-- Claim C7 is false as stated: an explicitly supplied empty selector is not
passed through; Python truthiness sends it to the derived default. -/
theorem c7_counterexample :
    extract_event_payload (DomainEvent.projectSelectionRequested "P" (some "") none) =
      [("selector", JsonValue.vstr "[data-project-name=\"P\"]")] ∧
    extract_event_payload (DomainEvent.projectSelectionRequested "P" (some "") none) ≠
      [("selector", JsonValue.vstr "")] :=
  ⟨rfl, by decide⟩

/-- Claim C7 (amended): for ProjectSelectionRequested, an explicit non-empty
selector is passed through unchanged as the payload's selector; with no
selector, or with an explicit but empty one, the payload's selector is the
derived default with the project name interpolated. -/
theorem c7_amended_selector_passthrough (pn : String) (sel cid : Option String) :
    (∀ s, sel = some s → s ≠ "" →
      extract_event_payload (DomainEvent.projectSelectionRequested pn sel cid) =
        [("selector", JsonValue.vstr s)]) ∧
    (sel = none ∨ sel = some "" →
      extract_event_payload (DomainEvent.projectSelectionRequested pn sel cid) =
        [("selector", JsonValue.vstr ("[data-project-name=\"" ++ pn ++ "\"]"))]) := by
  constructor
  · intro s hs hne
    subst hs
    simp [extract_event_payload, pyOr, hne]
  · intro h
    rcases h with h | h
    · subst h
      simp [extract_event_payload, pyOr]
    · subst h
      simp [extract_event_payload, pyOr]

/-- Witness for the amended claim C7: an explicit non-empty selector passes
through, and an absent selector yields the derived default. -/
theorem c7_amended_witness :
    extract_event_payload (DomainEvent.projectSelectionRequested "P" (some "#x") none) =
      [("selector", JsonValue.vstr "#x")] ∧
    extract_event_payload (DomainEvent.projectSelectionRequested "P" none none) =
      [("selector", JsonValue.vstr "[data-project-name=\"P\"]")] := by
  constructor
  · exact (c7_amended_selector_passthrough "P" (some "#x") none).1 "#x" rfl (by decide)
  · have h := (c7_amended_selector_passthrough "P" none none).2 (Or.inl rfl)
    rw [h]
    rfl

/-- Claim C8: for every event kind without a special case, payload extraction
returns exactly the event's own fields with the correlation_id entry removed:
nothing else is dropped, changed, added or reordered. -/
theorem c8_default_payload_shallow_copy (e : DomainEvent)
    (h : hasSpecialPayloadCase e = false) :
    extract_event_payload e = e.dict.filter (fun kv => kv.1 != "correlation_id") ∧
    (∀ k v, (k, v) ∈ extract_event_payload e ↔ ((k, v) ∈ e.dict ∧ k ≠ "correlation_id")) ∧
    (∀ kv ∈ extract_event_payload e, kv.1 ≠ "correlation_id") := by
  have he : extract_event_payload e = e.dict.filter (fun kv => kv.1 != "correlation_id") := by
    cases e with
    | projectSelectionRequested a b c => exact absurd h (by simp [hasSpecialPayloadCase])
    | promptSubmissionRequested a b c => exact absurd h (by simp [hasSpecialPayloadCase])
    | googleImageDownloadRequested a b c d => exact absurd h (by simp [hasSpecialPayloadCase])
    | fileDownloadRequested a b c d f => exact absurd h (by simp [hasSpecialPayloadCase])
    | chatSelectionRequested a b c => rfl
    | responseRetrievalRequested a b c => rfl
    | trainingModeRequested a b => rfl
    | otherEvent a b c => rfl
  refine ⟨he, ?_, ?_⟩
  · intro k v
    rw [he]
    simp [List.mem_filter, bne_iff_ne]
  · intro kv hkv
    rw [he] at hkv
    have hp := List.of_mem_filter hkv
    simpa [bne_iff_ne] using hp

/-- Witness for claim C8 on a concrete ChatSelectionRequested event: the
payload is the chat_title and selector fields and nothing else. -/
theorem c8_witness :
    hasSpecialPayloadCase (DomainEvent.chatSelectionRequested "t" (some "s") (some "c")) =
      false ∧
    extract_event_payload (DomainEvent.chatSelectionRequested "t" (some "s") (some "c")) =
      [("chat_title", JsonValue.vstr "t"), ("selector", JsonValue.vstr "s")] := by
  refine ⟨rfl, ?_⟩
  have h := (c8_default_payload_shallow_copy
    (DomainEvent.chatSelectionRequested "t" (some "s") (some "c")) rfl).1
  rw [h]
  rfl

/-- Claim C9: the action mapper is total over the six supported request kinds
with their fixed action strings, and raises (rather than returning a default
or empty action) for TrainingModeRequested and for any other class name. -/
theorem c9_action_mapping_total (pn ct pt psel rsel url ca web cname : String)
    (sel cid sq fn : Option String) (tmo : Nat) (img : JsonValue) (sa : Bool)
    (fields : List (String × JsonValue)) :
    map_event_to_action (DomainEvent.projectSelectionRequested pn sel cid) =
      Except.ok "SELECT_PROJECT" ∧
    map_event_to_action (DomainEvent.chatSelectionRequested ct sel cid) =
      Except.ok "SELECT_CHAT" ∧
    map_event_to_action (DomainEvent.promptSubmissionRequested pt psel cid) =
      Except.ok "FILL_PROMPT" ∧
    map_event_to_action (DomainEvent.responseRetrievalRequested rsel tmo cid) =
      Except.ok "GET_RESPONSE" ∧
    map_event_to_action (DomainEvent.googleImageDownloadRequested img sq fn cid) =
      Except.ok "DOWNLOAD_IMAGE" ∧
    map_event_to_action (DomainEvent.fileDownloadRequested url fn ca sa cid) =
      Except.ok "DOWNLOAD_FILE" ∧
    map_event_to_action (DomainEvent.trainingModeRequested web cid) =
      Except.error "No action mapping found for event type: TrainingModeRequested" ∧
    (cname ≠ "ProjectSelectionRequested" → cname ≠ "ChatSelectionRequested" →
     cname ≠ "PromptSubmissionRequested" → cname ≠ "ResponseRetrievalRequested" →
     cname ≠ "GoogleImageDownloadRequested" → cname ≠ "FileDownloadRequested" →
      map_event_to_action (DomainEvent.otherEvent cname fields cid) =
        Except.error ("No action mapping found for event type: " ++ cname)) := by
  refine ⟨rfl, rfl, rfl, rfl, rfl, rfl, rfl, ?_⟩
  intro h1 h2 h3 h4 h5 h6
  simp [map_event_to_action, DomainEvent.className, eventTypeMap, List.lookup,
    beq_eq_false_iff_ne.mpr h1, beq_eq_false_iff_ne.mpr h2, beq_eq_false_iff_ne.mpr h3,
    beq_eq_false_iff_ne.mpr h4, beq_eq_false_iff_ne.mpr h5, beq_eq_false_iff_ne.mpr h6]

/-- Witness for claim C9: an unrecognized class name raises rather than
getting a default action. -/
theorem c9_witness :
    map_event_to_action (DomainEvent.otherEvent "DummyEvent" [] none) =
      Except.error "No action mapping found for event type: DummyEvent" := by
  have h := (c9_action_mapping_total "p" "c" "t" "s" "r" "u" "a" "w" "DummyEvent"
    none none none none 0 JsonValue.vnull false []).2.2.2.2.2.2.2
    (by decide) (by decide) (by decide) (by decide) (by decide) (by decide)
  rw [h]
  rfl
